import Mathlib

/-!
Verification of the tab-group persistent store, auth session manager and
gist-sync client of the `the-one-tab` browser extension.

The TypeScript source is embedded shallowly: the `chrome.storage`-backed
document is an explicit `StorageData` value threaded through each
read-modify-write mutator, `Date.now()` is an explicit `now : Nat`
argument, the random group-id generator is an explicit `rid : String`
argument, and a thrown `Error` is `Except.error` carrying the thrown
message (the code throws before `saveStorageData`, so `.error` means the
stored document is left exactly as it was).
-/

namespace TheOneTab

/-- `Tab` from `src/lib/types` (`part_004`): a captured browser page. -/
structure Tab where
  id : String
  title : String
  url : String
  favIconUrl : Option String
  createdAt : Nat
deriving DecidableEq, Repr

/-- `Group` from `src/lib/types` (`part_004`): a named ordered tab list. -/
structure Group where
  id : String
  name : String
  description : Option String
  tabs : List Tab
  createdAt : Nat
  updatedAt : Nat
deriving DecidableEq, Repr

/-- `Settings` from `src/lib/types` (`part_004`). -/
structure Settings where
  closeAndSave : Bool
  oauthToken : Option String := none
  gistId : Option String := none
  githubClientId : Option String := none
  githubClientSecret : Option String := none
deriving DecidableEq, Repr

/-- `StorageData` from `src/lib/types` (`part_004`): the single root
document held under the `tabManagerData` key. -/
structure StorageData where
  groups : List Group
  settings : Settings
deriving DecidableEq, Repr

/-- `UserInfo` from `src/lib/types` (`part_004`). -/
structure UserInfo where
  login : String
  id : Nat
  avatar_url : String
  html_url : String
deriving DecidableEq, Repr

/-! ## `src/lib/utils/groups.ts` -/

/-- `createDefaultGroup` from `utils/groups.ts`. -/
def createDefaultGroup (now : Nat) : Group :=
  { id := "default", name := "Default", description := none, tabs := [],
    createdAt := now, updatedAt := now }

/-- `findGroupById` from `utils/groups.ts`: `groups.find(g => g.id === id)`. -/
def findGroupById (groups : List Group) (id : String) : Option Group :=
  groups.find? (fun g => g.id == id)

/-- `createNewGroup` from `utils/groups.ts`; the generated
`group_<Date.now()>_<random>` id is passed in as `rid`. -/
def createNewGroup (rid : String) (name : String) (descr : Option String)
    (now : Nat) : Group :=
  { id := rid, name := name, description := descr, tabs := [],
    createdAt := now, updatedAt := now }

/-! ## `src/lib/services/storage.ts` -/

/-- In-place mutation of the group object returned by `findGroupById`
(resp. assignment at `findIndex`): the first list entry whose id is `gid`
is replaced by `g'`, everything else kept. -/
def replaceFirstGroup (groups : List Group) (gid : String) (g' : Group) :
    List Group :=
  match groups with
  | [] => []
  | g :: rest =>
    if g.id == gid then g' :: rest else g :: replaceFirstGroup rest gid g'

/-- `saveGroup` (storage.ts:49-60): update the entry at `findIndex` if the
id exists, else push; `updatedAt` is set to `Date.now()` either way. -/
def saveGroup (data : StorageData) (group : Group) (now : Nat) :
    Except String StorageData :=
  match findGroupById data.groups group.id with
  | some _ => .ok { data with
      groups := replaceFirstGroup data.groups group.id ({ group with updatedAt := now }) }
  | none => .ok { data with
      groups := data.groups ++ [{ group with updatedAt := now }] }

/-- `deleteGroup` (storage.ts:62-70): refuse `"default"`, otherwise filter
the id out (no existence check). -/
def deleteGroup (data : StorageData) (groupId : String) :
    Except String StorageData :=
  if groupId == "default" then
    .error "Cannot delete default group"
  else
    .ok { data with groups := data.groups.filter (fun g => g.id != groupId) }

/-- `addTabsToGroup` (storage.ts:72-88): drop incoming tabs whose `url`
already occurs in the group, push the rest, bump `updatedAt`. -/
def addTabsToGroup (data : StorageData) (groupId : String) (tabs : List Tab)
    (now : Nat) : Except String StorageData :=
  match findGroupById data.groups groupId with
  | none => .error ("Group " ++ groupId ++ " not found")
  | some group =>
    let existingUrls := group.tabs.map Tab.url
    let newTabs := tabs.filter (fun t => !(existingUrls.contains t.url))
    let g' := { group with tabs := group.tabs ++ newTabs, updatedAt := now }
    .ok { data with groups := replaceFirstGroup data.groups groupId g' }

/-- `removeTabFromGroup` (storage.ts:90-102). -/
def removeTabFromGroup (data : StorageData) (groupId : String)
    (tabId : String) (now : Nat) : Except String StorageData :=
  match findGroupById data.groups groupId with
  | none => .error ("Group " ++ groupId ++ " not found")
  | some group =>
    let g' := { group with tabs := group.tabs.filter (fun t => t.id != tabId), updatedAt := now }
    .ok { data with groups := replaceFirstGroup data.groups groupId g' }

/-- `new Map(tabs.map(t => [t.id, t])).get(id)`: a JS `Map` built from an
entry list keeps the **last** entry for a repeated key. -/
def mapGetLast (tabs : List Tab) (id : String) : Option Tab :=
  match tabs with
  | [] => none
  | t :: rest =>
    match mapGetLast rest id with
    | some r => some r
    | none => if t.id == id then some t else none

/-- `reorderTabsInGroup` (storage.ts:104-132): reject ids missing from the
group, reject a length mismatch, then rebuild the tab list by `Map`
lookup. (Ids are only checked for membership and count, not uniqueness.) -/
def reorderTabsInGroup (data : StorageData) (groupId : String)
    (newOrder : List String) (now : Nat) : Except String StorageData :=
  match findGroupById data.groups groupId with
  | none => .error ("Group " ++ groupId ++ " not found")
  | some group =>
    let existingIds := group.tabs.map Tab.id
    let invalidIds := newOrder.filter (fun id => !(existingIds.contains id))
    if invalidIds.length > 0 then
      .error ("Invalid tab IDs: " ++ String.intercalate ", " invalidIds)
    else if newOrder.length != group.tabs.length then
      .error "New order must include all tabs"
    else
      let g' := { group with tabs := newOrder.filterMap (mapGetLast group.tabs), updatedAt := now }
      .ok { data with groups := replaceFirstGroup data.groups groupId g' }

/-- `new Map(groups.map(g => [g.id, g])).get(id)` (last entry wins). -/
def mapGetLastGroup (groups : List Group) (id : String) : Option Group :=
  match groups with
  | [] => none
  | g :: rest =>
    match mapGetLastGroup rest id with
    | some r => some r
    | none => if g.id == id then some g else none

/-- `reorderGroups` (storage.ts:159-181): same validation shape as
`reorderTabsInGroup`, applied to the whole group list; `updatedAt` is not
touched. -/
def reorderGroups (data : StorageData) (newOrder : List String) :
    Except String StorageData :=
  let existingIds := data.groups.map Group.id
  let invalidIds := newOrder.filter (fun id => !(existingIds.contains id))
  if invalidIds.length > 0 then
    .error ("Invalid group IDs: " ++ String.intercalate ", " invalidIds)
  else if newOrder.length != data.groups.length then
    .error "New order must include all groups"
  else
    .ok { data with groups := newOrder.filterMap (mapGetLastGroup data.groups) }

/-- `tabs.splice(indexOf first id match, 1)`. -/
def removeFirstTabById (tabs : List Tab) (tabId : String) : List Tab :=
  match tabs with
  | [] => []
  | t :: rest =>
    if t.id == tabId then rest else t :: removeFirstTabById rest tabId

/-- `tabs.splice(indexOf first url match, 1)`, identity when absent. -/
def removeFirstTabByUrl (tabs : List Tab) (url : String) : List Tab :=
  match tabs with
  | [] => []
  | t :: rest =>
    if t.url == url then rest else t :: removeFirstTabByUrl rest url

/-- `moveTabBetweenGroups` (storage.ts:183-228): no-op when source equals
target; otherwise remove the tab from the source group, de-duplicate the
target by the tab's url, append, and bump both `updatedAt`s. -/
def moveTabBetweenGroups (data : StorageData) (tabId : String)
    (fromGroupId : String) (toGroupId : String) (now : Nat) :
    Except String StorageData :=
  if fromGroupId == toGroupId then
    .ok data
  else
    match findGroupById data.groups fromGroupId with
    | none => .error ("Source group " ++ fromGroupId ++ " not found")
    | some fromGroup =>
      match findGroupById data.groups toGroupId with
      | none => .error ("Target group " ++ toGroupId ++ " not found")
      | some toGroup =>
        match fromGroup.tabs.find? (fun t => t.id == tabId) with
        | none => .error ("Tab " ++ tabId ++ " not found in source group")
        | some tab =>
          let from' : Group := { fromGroup with tabs := removeFirstTabById fromGroup.tabs tabId, updatedAt := now }
          let to' : Group := { toGroup with tabs := removeFirstTabByUrl toGroup.tabs tab.url ++ [tab], updatedAt := now }
          let groups1 := replaceFirstGroup data.groups fromGroupId from'
          let groups2 := replaceFirstGroup groups1 toGroupId to'
          .ok { data with groups := groups2 }

/-- JS `String.prototype.trim`: strip whitespace from both ends, modeled
over the character list (Lean's built-in `String.trim` is byte-position
based and does not reduce in the kernel). -/
def jsTrim (s : String) : String :=
  String.mk (((s.data.dropWhile Char.isWhitespace).reverse.dropWhile
    Char.isWhitespace).reverse)

/-- JS `String.prototype.toLowerCase` on the ASCII range used by group
names, modeled characterwise. -/
def jsToLower (s : String) : String :=
  String.mk (s.data.map Char.toLower)

/-- `createGroup` (storage.ts:230-248): reject empty / whitespace-only
names (`!name || name.trim() === ""`), reject a trimmed case-insensitive
name collision, else push a fresh group (generated id passed as `rid`)
and return it together with the stored document. -/
def createGroup (data : StorageData) (name : String) (descr : Option String)
    (now : Nat) (rid : String) : Except String (Group × StorageData) :=
  if name == "" || jsTrim name == "" then
    .error "Group name cannot be empty"
  else
    match data.groups.find?
        (fun g => jsToLower (jsTrim g.name) == jsToLower (jsTrim name)) with
    | some _ =>
      .error ("Group with name \"" ++ name ++ "\" already exists")
    | none =>
      let newGroup := createNewGroup rid (jsTrim name) (descr.map jsTrim) now
      .ok (newGroup, { data with groups := data.groups ++ [newGroup] })

/-- The document held by `chrome.storage` after a mutator runs: the `.ok`
payload, or the untouched input when the mutator threw before its
`saveStorageData` call. -/
def storedAfter (data : StorageData) (r : Except String StorageData) :
    StorageData :=
  match r with
  | .ok d => d
  | .error _ => data

/-- `storedAfter` for `createGroup`, whose success payload also carries
the returned group. -/
def storedAfterCreate (data : StorageData)
    (r : Except String (Group × StorageData)) : StorageData :=
  match r with
  | .ok p => p.2
  | .error _ => data

/-! ## The gist document (`github.ts` half of `storage.ts` source file)

`createGist`/`updateGist` upload `JSON.stringify(data, null, 2)` and
`syncFromGist` runs `JSON.parse` on the downloaded file content.
`JSON.stringify` and `JSON.parse` are the JS platform's mutually inverse
maps between trees and strings, so the document is embedded at the tree
level: `Json` below is the parsed shape of the pretty-printed file.
`JSON.stringify` emits the keys of each object literal in insertion order
and omits keys whose value is `undefined`; every number serialized here
is a `Date.now()` timestamp, an exact (non-fractional) double. -/

/-- A JSON tree as produced by `JSON.parse` of the gist file. -/
inductive Json where
  | str : String → Json
  | num : Nat → Json
  | bool : Bool → Json
  | arr : List Json → Json
  | obj : List (String × Json) → Json

/-- Insertion-ordered emission of an optional string property:
`JSON.stringify` skips the key when the value is `undefined`. -/
def optField (k : String) (v : Option String) : List (String × Json) :=
  match v with
  | some s => [(k, Json.str s)]
  | none => []

/-- The serialized form of a `Tab` (object literal key order of
`src/lib/types`). -/
def Tab.toJson (t : Tab) : Json :=
  Json.obj ([("id", Json.str t.id), ("title", Json.str t.title),
    ("url", Json.str t.url)] ++ optField "favIconUrl" t.favIconUrl ++
    [("createdAt", Json.num t.createdAt)])

/-- The serialized form of a `Group`. -/
def Group.toJson (g : Group) : Json :=
  Json.obj ([("id", Json.str g.id), ("name", Json.str g.name)] ++
    optField "description" g.description ++
    [("tabs", Json.arr (g.tabs.map Tab.toJson)),
     ("createdAt", Json.num g.createdAt), ("updatedAt", Json.num g.updatedAt)])

/-- The serialized form of `Settings`. -/
def Settings.toJson (s : Settings) : Json :=
  Json.obj ([("closeAndSave", Json.bool s.closeAndSave)] ++
    optField "oauthToken" s.oauthToken ++ optField "gistId" s.gistId ++
    optField "githubClientId" s.githubClientId ++
    optField "githubClientSecret" s.githubClientSecret)

/-- The whole document uploaded by `createGist`/`updateGist`
(storage key order `{groups, settings}`). -/
def StorageData.toJson (d : StorageData) : Json :=
  Json.obj [("groups", Json.arr (d.groups.map Group.toJson)),
            ("settings", d.settings.toJson)]

/-- JS property access `o[k]` on a parsed object: the value at the first
occurrence of the key (`JSON.parse` never yields duplicate keys),
`undefined` (`none`) when the key is absent or `o` is not an object. -/
def Json.lookup (j : Json) (k : String) : Option Json :=
  match j with
  | Json.obj fields => fields.lookup k
  | _ => none

/-- Read a JS string value. -/
def Json.asStr : Json → Option String
  | Json.str s => some s
  | _ => none

/-- Read a JS number value (timestamps only in this document). -/
def Json.asNum : Json → Option Nat
  | Json.num n => some n
  | _ => none

/-- Read a JS boolean value. -/
def Json.asBool : Json → Option Bool
  | Json.bool b => some b
  | _ => none

/-- Read a JS array value. -/
def Json.asArr : Json → Option (List Json)
  | Json.arr l => some l
  | _ => none

/-- Read an optional string property the way the TS types declare it:
absent key means `undefined`, a present key must hold a string. -/
def optStrField (j : Json) (k : String) : Option (Option String) :=
  match j.lookup k with
  | none => some none
  | some v => (Json.asStr v).map some

/-- View a parsed tree as a `Tab`, per the field accesses the TS type
declares; `none` when the tree does not have that shape. -/
def Tab.fromJson (j : Json) : Option Tab :=
  match (j.lookup "id").bind Json.asStr, (j.lookup "title").bind Json.asStr,
      (j.lookup "url").bind Json.asStr, optStrField j "favIconUrl",
      (j.lookup "createdAt").bind Json.asNum with
  | some id, some title, some url, some fav, some c =>
    some { id := id, title := title, url := url, favIconUrl := fav,
           createdAt := c }
  | _, _, _, _, _ => none

/-- View each element of a parsed array as a `Tab`. -/
def decodeTabs : List Json → Option (List Tab)
  | [] => some []
  | j :: rest =>
    match Tab.fromJson j, decodeTabs rest with
    | some t, some ts => some (t :: ts)
    | _, _ => none

/-- View a parsed tree as a `Group`. -/
def Group.fromJson (j : Json) : Option Group :=
  match (j.lookup "id").bind Json.asStr, (j.lookup "name").bind Json.asStr,
      optStrField j "description", (j.lookup "tabs").bind Json.asArr,
      (j.lookup "createdAt").bind Json.asNum,
      (j.lookup "updatedAt").bind Json.asNum with
  | some id, some name, some desc, some tabsJ, some c, some u =>
    (decodeTabs tabsJ).map (fun tabs =>
      { id := id, name := name, description := desc, tabs := tabs,
        createdAt := c, updatedAt := u })
  | _, _, _, _, _, _ => none

/-- View a parsed tree as `Settings`. -/
def Settings.fromJson (j : Json) : Option Settings :=
  match (j.lookup "closeAndSave").bind Json.asBool, optStrField j "oauthToken",
      optStrField j "gistId", optStrField j "githubClientId",
      optStrField j "githubClientSecret" with
  | some cs, some tok, some gid, some cid, some sec =>
    some { closeAndSave := cs, oauthToken := tok, gistId := gid,
           githubClientId := cid, githubClientSecret := sec }
  | _, _, _, _, _ => none

/-- View each element of a parsed array as a `Group`. -/
def decodeGroups : List Json → Option (List Group)
  | [] => some []
  | j :: rest =>
    match Group.fromJson j, decodeGroups rest with
    | some g, some gs => some (g :: gs)
    | _, _ => none

/-- View a parsed tree as `StorageData`. -/
def StorageData.fromJson (j : Json) : Option StorageData :=
  match (j.lookup "groups").bind Json.asArr,
      (j.lookup "settings").bind Settings.fromJson with
  | some groupsJ, some s =>
    (decodeGroups groupsJ).map (fun gs =>
      { groups := gs, settings := s })
  | _, _ => none

/-- JS truthiness of a parsed value (`!data.groups` style check);
an absent property (`none`) is `undefined`, hence falsy. -/
def jsTruthy : Option Json → Bool
  | none => false
  | some (Json.str s) => s != ""
  | some (Json.num n) => n != 0
  | some (Json.bool b) => b
  | some (Json.arr _) => true
  | some (Json.obj _) => true

/-- The tail of `syncFromGist` (storage.ts source, lines 699-710 of the
service file): `JSON.parse` the downloaded content, reject the document
unless both `data.groups` and `data.settings` are truthy, then store and
return it. The parsed tree is viewed back as `StorageData`; `.error` on
a malformed tree stands for the undefined behavior of the unchecked TS
cast, which serialized documents never hit. -/
def syncFromGistContent (content : Json) : Except String StorageData :=
  if !(jsTruthy (content.lookup "groups")) ||
      !(jsTruthy (content.lookup "settings")) then
    .error "Invalid data format"
  else
    match StorageData.fromJson content with
    | some d => .ok d
    | none => .error "Invalid data format"

/-! ## `src/lib/services/auth.ts` and the OAuth callback (`part_003`)

The module-level mutable auth state (`isSignedIn`, `login`, `userInfo`,
`token`) is threaded explicitly as `AuthMem`; the persisted `Settings`
travel alongside because `signOut`/`markUserAsSignedIn` write the token
through `saveSettings`. Remote calls (`testGitHubToken`, `getUserInfo`)
and the token-exchange tail of the OAuth flow are oracle parameters:
`.ok`/`.error` is the promise resolving/rejecting. -/

/-- The module-level auth state of `auth.ts`. -/
structure AuthMem where
  isSignedIn : Bool
  login : String
  userInfo : Option UserInfo
  token : Option String
deriving DecidableEq, Repr

/-- `markUserAsSignedOut` (auth.ts:85-91). -/
def markUserAsSignedOut : AuthMem :=
  { isSignedIn := false, login := "", userInfo := none, token := none }

/-- `markUserAsSignedIn` (auth.ts:48-83): set the in-memory state and
persist the token into `Settings` when it differs from the stored one. -/
def markUserAsSignedIn (s : Settings) (tok : String) (u : UserInfo) :
    AuthMem × Settings :=
  ({ isSignedIn := true, login := u.login, userInfo := some u,
     token := some tok },
   if s.oauthToken == some tok then s else { s with oauthToken := some tok })

/-- `signOut` (auth.ts:155-178): clear the persisted token, then clear the
in-memory state. -/
def signOut (s : Settings) : AuthMem × Settings :=
  (markUserAsSignedOut, { s with oauthToken := none })

/-- The message thrown by `ensureAuthenticated` when no valid session
exists. -/
def authRequiredMessage : String :=
  "Bạn cần đăng nhập với GitHub để thực hiện thao tác này. Vui lòng mở Options page và đăng nhập."

/-- `ensureAuthenticated` (auth.ts:101-121): with an in-memory session,
re-validate the token via `testGitHubToken` (oracle `validate`); return on
success, otherwise `signOut` and throw; with no session, throw at once. -/
def ensureAuthenticated (st : AuthMem) (s : Settings)
    (validate : String → Except String Bool) :
    Except String Unit × AuthMem × Settings :=
  match st.isSignedIn, st.token with
  | true, some tok =>
    (match validate tok with
     | .ok true => (.ok (), st, s)
     | .ok false =>
       let p := signOut s
       (.error authRequiredMessage, p.1, p.2)
     | .error _ =>
       let p := signOut s
       (.error authRequiredMessage, p.1, p.2))
  | _, _ => (.error authRequiredMessage, st, s)

/-- JS truthiness of a `URLSearchParams.get` result (`null` when the
parameter is absent, possibly `""` when present but empty). -/
def strTruthy : Option String → Bool
  | some s => s != ""
  | none => false

/-- The query parameters of the OAuth callback URL (`part_003`,
`authenticateWithGitHub`). -/
structure CallbackParams where
  code : Option String
  callbackState : Option String
  error : Option String
  errorDescription : Option String
deriving DecidableEq, Repr

/-- The access-denied message built in `part_003` lines 125-132. -/
def accessDeniedMessage : String :=
  "Bạn đã từ chối cấp quyền. Vui lòng bấm \"Authorize\" trên trang GitHub để đăng nhập."

/-- Lines 118-137 of `part_003`: classify the callback URL. An `error`
parameter rejects the flow (with the dedicated message for
`access_denied`, else `error_description || error`); a missing `code`
rejects with "No authorization code received"; otherwise the code is
extracted. -/
def extractAuthCode (cb : CallbackParams) : Except String String :=
  if strTruthy cb.error then
    let e := cb.error.getD ""
    if e == "access_denied" then
      .error accessDeniedMessage
    else
      .error (if strTruthy cb.errorDescription then cb.errorDescription.getD "" else e)
  else if !(strTruthy cb.code) then
    .error "No authorization code received"
  else
    .ok (cb.code.getD "")

/-- `authenticateWithGitHub` (`part_003`) after the callback URL arrives:
classify the callback, then run the verifier-retrieval / token-exchange
tail (oracle `exchange`) on the extracted code. -/
def authenticateWithGitHub (cb : CallbackParams)
    (exchange : String → Except String String) : Except String String :=
  match extractAuthCode cb with
  | .error m => .error m
  | .ok c => exchange c

/-- `signIn` (auth.ts:123-153): require a client id and secret in
`Settings`, run the OAuth flow (its outcome `flow`), fetch the user
profile (oracle `fetchUser`), and only then persist the token and mark
the session signed in; any failure re-throws with state untouched. -/
def signIn (st : AuthMem) (s : Settings) (flow : Except String String)
    (fetchUser : String → Except String UserInfo) :
    Except String Bool × AuthMem × Settings :=
  if !(strTruthy s.githubClientId) then
    (.error "Vui lòng nhập GitHub OAuth App Client ID trong Settings trước", st, s)
  else if !(strTruthy s.githubClientSecret) then
    (.error "Vui lòng nhập GitHub OAuth App Client Secret trong Settings trước", st, s)
  else
    match flow with
    | .error m => (.error m, st, s)
    | .ok tok =>
      match fetchUser tok with
      | .error m => (.error m, st, s)
      | .ok u =>
        let p := markUserAsSignedIn s tok u
        (.ok true, p.1, p.2)


/-! ## Sample stores used by concrete witnesses and counterexamples -/

/-- A saved tab used in concrete witnesses. -/
def sampleTab1 : Tab :=
  { id := "t1", title := "A", url := "https://a.example", favIconUrl := none,
    createdAt := 1 }

/-- A second saved tab. -/
def sampleTab2 : Tab :=
  { id := "t2", title := "B", url := "https://b.example",
    favIconUrl := some "https://b.example/i.png", createdAt := 2 }

/-- The default group holding the two sample tabs. -/
def sampleGroup : Group :=
  { id := "default", name := "Default", description := none,
    tabs := [sampleTab1, sampleTab2], createdAt := 0, updatedAt := 0 }

/-- A second, empty group named `Work`. -/
def sampleWorkGroup : Group :=
  { id := "g2", name := "Work", description := none, tabs := [],
    createdAt := 3, updatedAt := 3 }

/-- A store holding only the default group. -/
def sampleData : StorageData :=
  { groups := [sampleGroup], settings := { closeAndSave := false } }

/-- A store holding the default group and the `Work` group. -/
def sampleData2 : StorageData :=
  { groups := [sampleGroup, sampleWorkGroup],
    settings := { closeAndSave := false } }

/-- Settings with an OAuth client id and secret configured. -/
def sampleAuthSettings : Settings :=
  { closeAndSave := false, oauthToken := none, gistId := none,
    githubClientId := some "cid", githubClientSecret := some "sec" }

/-! ## General lemmas about the embedded operations -/

theorem mapGetLast_eq_none (tabs : List Tab) (i : String)
    (h : i ∉ tabs.map Tab.id) : mapGetLast tabs i = none := by
  induction tabs with
  | nil => rfl
  | cons t rest ih =>
    simp only [List.map_cons, List.mem_cons, not_or] at h
    simp [mapGetLast, ih h.2, beq_eq_false_iff_ne.mpr (fun e => h.1 e.symm)]

theorem mapGetLast_mem (tabs : List Tab) (i : String)
    (h : i ∈ tabs.map Tab.id) :
    ∃ t, mapGetLast tabs i = some t ∧ t ∈ tabs ∧ t.id = i := by
  induction tabs with
  | nil => simp at h
  | cons t rest ih =>
    by_cases hr : i ∈ rest.map Tab.id
    · obtain ⟨r, hget, hmem, hid⟩ := ih hr
      exact ⟨r, by simp [mapGetLast, hget], List.mem_cons_of_mem _ hmem, hid⟩
    · have hti : t.id = i := by
        simp only [List.map_cons, List.mem_cons] at h
        tauto
      refine ⟨t, ?_, List.mem_cons_self _ _, hti⟩
      simp [mapGetLast, mapGetLast_eq_none rest i hr, hti]

theorem filterMap_mapGetLast_ids (tabs : List Tab) (p : List String)
    (hsub : ∀ i ∈ p, i ∈ tabs.map Tab.id) :
    (p.filterMap (mapGetLast tabs)).map Tab.id = p ∧
    ∀ t ∈ p.filterMap (mapGetLast tabs), t ∈ tabs := by
  induction p with
  | nil => simp
  | cons i rest ih =>
    have hi := hsub i (List.mem_cons_self _ _)
    obtain ⟨t, hget, hmem, hid⟩ := mapGetLast_mem tabs i hi
    have ihr := ih (fun j hj => hsub j (List.mem_cons_of_mem _ hj))
    constructor
    · simp [List.filterMap_cons, hget, hid, ihr.1]
    · intro t' ht'
      simp only [List.filterMap_cons, hget] at ht'
      rcases List.mem_cons.mp ht' with h | h
      · exact h ▸ hmem
      · exact ihr.2 t' h

theorem find_replaceFirstGroup (groups : List Group) (gid : String)
    (g g' : Group) (hfind : findGroupById groups gid = some g)
    (hid : g'.id = gid) :
    findGroupById (replaceFirstGroup groups gid g') gid = some g' := by
  induction groups with
  | nil => simp [findGroupById] at hfind
  | cons h rest ih =>
    by_cases hh : h.id = gid
    · simp [replaceFirstGroup, hh, findGroupById, List.find?, hid]
    · have hb : (h.id == gid) = false := beq_eq_false_iff_ne.mpr hh
      simp only [findGroupById, List.find?, hb] at hfind ⊢
      simp only [replaceFirstGroup, hb, Bool.false_eq_true, if_false]
      simp only [findGroupById] at ih
      simp only [List.find?, hb]
      exact ih hfind

theorem filter_not_contains_nil (l : List String) (ids : List String)
    (hsub : ∀ i ∈ l, i ∈ ids) :
    l.filter (fun i => !(ids.contains i)) = [] := by
  rw [List.filter_eq_nil_iff]
  intro i hi
  simp [hsub i hi]

/-! ## Round-trip lemmas for the serialized gist document -/

theorem tab_json_roundtrip (t : Tab) : Tab.fromJson (Tab.toJson t) = some t := by
  obtain ⟨i, ti, u, f, c⟩ := t
  cases f <;> rfl

theorem decodeTabs_map (ts : List Tab) :
    decodeTabs (ts.map Tab.toJson) = some ts := by
  induction ts with
  | nil => rfl
  | cons h t ih => simp [decodeTabs, tab_json_roundtrip, ih]

theorem settings_json_roundtrip (s : Settings) :
    Settings.fromJson (Settings.toJson s) = some s := by
  obtain ⟨cs, tok, gid, cid, sec⟩ := s
  cases tok <;> cases gid <;> cases cid <;> cases sec <;> cases cs <;> rfl

theorem group_json_roundtrip (g : Group) : Group.fromJson (Group.toJson g) = some g := by
  obtain ⟨i, n, dsc, ts, c, u⟩ := g
  cases dsc <;>
    · show (decodeTabs (ts.map Tab.toJson)).map _ = _
      rw [decodeTabs_map]
      rfl

theorem decodeGroups_map (gs : List Group) :
    decodeGroups (gs.map Group.toJson) = some gs := by
  induction gs with
  | nil => rfl
  | cons h t ih => simp [decodeGroups, group_json_roundtrip, ih]

theorem storage_json_roundtrip (d : StorageData) :
    StorageData.fromJson (StorageData.toJson d) = some d := by
  obtain ⟨gs, s⟩ := d
  show (match (Json.lookup (StorageData.toJson ⟨gs, s⟩) "groups").bind Json.asArr,
      (Json.lookup (StorageData.toJson ⟨gs, s⟩) "settings").bind Settings.fromJson with
  | some groupsJ, some s => (decodeGroups groupsJ).map (fun l => ({ groups := l, settings := s } : StorageData))
  | _, _ => none) = some ⟨gs, s⟩
  rw [show (Json.lookup (StorageData.toJson ⟨gs, s⟩) "settings").bind Settings.fromJson = Settings.fromJson (Settings.toJson s) from rfl]
  rw [settings_json_roundtrip]
  show (decodeGroups (gs.map Group.toJson)).map _ = _
  rw [decodeGroups_map]
  rfl

/-! ## Claim theorems -/

/-- C1 (code bug evidence): `reorderTabsInGroup` was specified to reject
any id list that omits or duplicates an existing tab id, and its own
error message says "New order must include all tabs"; yet the id list
`["t1", "t1"]` over the tabs `{t1, t2}` passes both checks (every entry
is a known id and the length matches), so the call succeeds and corrupts
the group to `[t1, t1]`, silently dropping `t2`. The same slip exists in
`reorderGroups`: `["default", "default"]` over the groups
`{default, g2}` duplicates the default group and drops `g2`. -/
theorem reorder_accepts_duplicate_ids :
    reorderTabsInGroup sampleData "default" ["t1", "t1"] 7 =
      .ok { sampleData with groups := [{ sampleGroup with tabs := [sampleTab1, sampleTab1], updatedAt := 7 }] } ∧
    reorderGroups sampleData2 ["default", "default"] =
      .ok { sampleData2 with groups := [sampleGroup, sampleGroup] } :=
  ⟨rfl, rfl⟩

/-- C2: the gist document round-trips: serializing a `StorageData` as
`createGist`/`updateGist` do (`JSON.stringify(data, null, 2)`, embedded
at the parse-tree level) and running the tail of `syncFromGist` on it
(`JSON.parse`, the `!data.groups || !data.settings` validation, the view
back as `StorageData`) reproduces the document exactly, for every
document; since `syncFromGist` also stores this parsed value verbatim,
`fetchRemote` after `syncToRemote` with no intervening local change
returns and persists the original `StorageData`. -/
theorem syncFromGist_roundtrip (x : StorageData) :
    syncFromGistContent (StorageData.toJson x) = .ok x := by
  obtain ⟨gs, s⟩ := x
  show (match StorageData.fromJson (StorageData.toJson ⟨gs, s⟩) with
        | some d => Except.ok d
        | none => Except.error "Invalid data format") =
      Except.ok (⟨gs, s⟩ : StorageData)
  rw [storage_json_roundtrip]

/-- C3: for a group present in the store and any true permutation `p` of
its tab ids, `reorderTabsInGroup` succeeds, and reading the group back
yields tabs whose ids, in order, are exactly `p`, every resulting tab
being one of the group's original tab records, with the group's other
fields (id, name, description, createdAt) unchanged. -/
theorem reorderTabsInGroup_valid_perm (data : StorageData) (gid : String)
    (g : Group) (p : List String) (now : Nat)
    (hfind : findGroupById data.groups gid = some g)
    (hperm : p.Perm (g.tabs.map Tab.id)) :
    ∃ d', reorderTabsInGroup data gid p now = .ok d' ∧
      d'.settings = data.settings ∧
      ∃ g', findGroupById d'.groups gid = some g' ∧
        g'.tabs.map Tab.id = p ∧
        (∀ t ∈ g'.tabs, t ∈ g.tabs) ∧
        g'.id = g.id ∧ g'.name = g.name ∧
        g'.description = g.description ∧ g'.createdAt = g.createdAt := by
  have hsub : ∀ i ∈ p, i ∈ g.tabs.map Tab.id := fun i hi => hperm.mem_iff.mp hi
  have hlen : p.length = g.tabs.length := by
    simpa using hperm.length_eq
  have hinv : p.filter (fun i => !((g.tabs.map Tab.id).contains i)) = [] :=
    filter_not_contains_nil p _ hsub
  have hgid : g.id = gid := by
    have hb := List.find?_some hfind
    exact eq_of_beq hb
  set g' : Group :=
    { g with tabs := p.filterMap (mapGetLast g.tabs), updatedAt := now } with hg'
  obtain ⟨hids, hmem⟩ := filterMap_mapGetLast_ids g.tabs p hsub
  refine ⟨{ data with groups := replaceFirstGroup data.groups gid g' },
    ?_, rfl, g', ?_, ?_, ?_, rfl, rfl, rfl, rfl⟩
  · simp only [reorderTabsInGroup, hfind, hinv, List.length_nil, gt_iff_lt,
      Nat.lt_irrefl, if_false, hlen, bne_self_eq_false, Bool.false_eq_true]
  · exact find_replaceFirstGroup data.groups gid g g' hfind hgid
  · exact hids
  · exact hmem

/-- Witness for C3 at a concrete store: reordering the default group's
tabs to `["t2", "t1"]`. -/
theorem reorderTabsInGroup_valid_perm_witness :
    ∃ d', reorderTabsInGroup sampleData "default" ["t2", "t1"] 7 = .ok d' ∧
      d'.settings = sampleData.settings ∧
      ∃ g', findGroupById d'.groups "default" = some g' ∧
        g'.tabs.map Tab.id = ["t2", "t1"] ∧
        (∀ t ∈ g'.tabs, t ∈ sampleGroup.tabs) ∧
        g'.id = sampleGroup.id ∧ g'.name = sampleGroup.name ∧
        g'.description = sampleGroup.description ∧
        g'.createdAt = sampleGroup.createdAt :=
  reorderTabsInGroup_valid_perm sampleData "default" sampleGroup
    ["t2", "t1"] 7 rfl (by decide)

/-- C4: adding a tab whose url is already present in the group leaves the
group's tab list unchanged (the existing tab wins, the incoming tab is
dropped, no duplicate entry appears); only `updatedAt` is bumped. -/
theorem addTabsToGroup_url_idempotent (data : StorageData) (gid : String)
    (g : Group) (t : Tab) (now : Nat)
    (hfind : findGroupById data.groups gid = some g)
    (hurl : t.url ∈ g.tabs.map Tab.url) :
    ∃ d', addTabsToGroup data gid [t] now = .ok d' ∧
      findGroupById d'.groups gid = some { g with updatedAt := now } := by
  have hgid : g.id = gid := by
    have hb := List.find?_some hfind
    exact eq_of_beq hb
  have hfilter : [t].filter (fun u => !((g.tabs.map Tab.url).contains u.url)) = [] := by
    obtain ⟨x, hx, hxu⟩ := List.mem_map.mp hurl
    simp [hurl]
    exact ⟨x, hx, hxu⟩
  refine ⟨{ data with groups := replaceFirstGroup data.groups gid ({ g with updatedAt := now }) }, ?_, ?_⟩
  · simp only [addTabsToGroup, hfind, hfilter, List.append_nil]
  · exact find_replaceFirstGroup data.groups gid g _ hfind hgid

/-- Witness for C4: re-adding a tab with `sampleTab1`'s url (under a new
tab id) to the default group keeps the tab list identical. -/
theorem addTabsToGroup_url_idempotent_witness :
    ∃ d', addTabsToGroup sampleData "default"
        [{ id := "t9", title := "dup", url := "https://a.example",
           favIconUrl := none, createdAt := 9 }] 5 = .ok d' ∧
      findGroupById d'.groups "default" =
        some { sampleGroup with updatedAt := 5 } :=
  addTabsToGroup_url_idempotent sampleData "default" sampleGroup
    { id := "t9", title := "dup", url := "https://a.example",
      favIconUrl := none, createdAt := 9 } 5 rfl (by decide)

/-- C5: `deleteGroup "default"` always fails with the validation error
(and, throwing before any write, leaves the stored document unchanged),
while no other group id is protected: for any `gid ≠ "default"` the call
returns `.ok`. -/
theorem deleteGroup_default_protected (data : StorageData) :
    deleteGroup data "default" = .error "Cannot delete default group" ∧
    ∀ gid : String, gid ≠ "default" → ∃ d', deleteGroup data gid = .ok d' := by
  refine ⟨rfl, ?_⟩
  intro gid h
  have hb : (gid == "default") = false := beq_eq_false_iff_ne.mpr h
  exact ⟨{ data with groups := data.groups.filter (fun g => g.id != gid) },
    by simp [deleteGroup, hb]⟩

/-- Witness for C5 at a concrete store with the id `g2`. -/
theorem deleteGroup_default_protected_witness :
    deleteGroup sampleData2 "default" = .error "Cannot delete default group" ∧
    ∃ d', deleteGroup sampleData2 "g2" = .ok d' :=
  ⟨(deleteGroup_default_protected sampleData2).1,
   (deleteGroup_default_protected sampleData2).2 "g2" (by decide)⟩

/-- C6: `createGroup` rejects an empty or whitespace-only name and, for a
non-empty one, rejects a trimmed, case-folded name collision with any
existing group (e.g. an existing "Work" blocks "work"); in every failing
case the mutator throws before writing, so the stored document — in
particular its group list — is unchanged. -/
theorem createGroup_validation (data : StorageData) (nm : String)
    (descr : Option String) (now : Nat) (rid : String) :
    (jsTrim nm = "" →
      createGroup data nm descr now rid = .error "Group name cannot be empty") ∧
    ((∃ g ∈ data.groups, jsToLower (jsTrim g.name) = jsToLower (jsTrim nm)) →
      ∃ e, createGroup data nm descr now rid = .error e) ∧
    (∀ e, createGroup data nm descr now rid = .error e →
      storedAfterCreate data (createGroup data nm descr now rid) = data) := by
  refine ⟨?_, ?_, ?_⟩
  · intro h
    simp [createGroup, h]
  · rintro ⟨g, hmem, heq⟩
    cases hcond : (nm == "" || jsTrim nm == "") with
    | true => exact ⟨"Group name cannot be empty", by simp [createGroup, hcond]⟩
    | false =>
      have hfind : (data.groups.find?
          (fun g => jsToLower (jsTrim g.name) == jsToLower (jsTrim nm))).isSome := by
        rw [List.find?_isSome]
        exact ⟨g, hmem, by simp [heq]⟩
      obtain ⟨g0, hg0⟩ := Option.isSome_iff_exists.mp hfind
      refine ⟨"Group with name \"" ++ nm ++ "\" already exists", ?_⟩
      simp [createGroup, hcond, hg0]
  · intro e he
    simp [storedAfterCreate, he]

/-- Witness for C6: against a store containing a group named "Work",
`createGroup "work"` and `createGroup "   "` both fail and leave the
store unchanged. -/
theorem createGroup_validation_witness :
    (jsTrim "   " = "" ∧
      createGroup sampleData2 "   " none 9 "r1" = .error "Group name cannot be empty") ∧
    ∃ e, createGroup sampleData2 "work" none 9 "r1" = .error e :=
  ⟨⟨by decide, (createGroup_validation sampleData2 "   " none 9 "r1").1 (by decide)⟩,
   (createGroup_validation sampleData2 "work" none 9 "r1").2.1
     ⟨sampleWorkGroup, by decide, by decide⟩⟩

/-- C7: `ensureAuthenticated` never initiates interactive sign-in; the
three cases below are exhaustive over the in-memory session state. When
SignedOut (no flag or no token) it fails immediately with the
auth-required error, leaving state and settings untouched; when SignedIn
and the remote validation succeeds it returns with everything untouched;
when SignedIn and the remote validation returns false or throws, it
first signs out (clearing the in-memory session and the persisted
`oauthToken`) and then fails with the auth-required error. -/
theorem ensureAuthenticated_spec (st : AuthMem) (s : Settings)
    (validate : String → Except String Bool) :
    ((st.isSignedIn = false ∨ st.token = none) →
      ensureAuthenticated st s validate = (.error authRequiredMessage, st, s)) ∧
    (∀ tok, st.isSignedIn = true → st.token = some tok →
      validate tok = .ok true →
      ensureAuthenticated st s validate = (.ok (), st, s)) ∧
    (∀ tok, st.isSignedIn = true → st.token = some tok →
      validate tok ≠ .ok true →
      ensureAuthenticated st s validate =
        (.error authRequiredMessage, markUserAsSignedOut,
          { s with oauthToken := none })) := by
  refine ⟨?_, ?_, ?_⟩
  · rintro (h | h)
    · cases htk : st.token <;> simp [ensureAuthenticated, h, htk]
    · cases hsi : st.isSignedIn <;> simp [ensureAuthenticated, h, hsi]
  · intro tok h1 h2 hv
    simp [ensureAuthenticated, h1, h2, hv]
  · intro tok h1 h2 hv
    cases hvv : validate tok with
    | ok b =>
      cases b with
      | true => exact absurd hvv hv
      | false => simp [ensureAuthenticated, h1, h2, hvv, signOut]
    | error e => simp [ensureAuthenticated, h1, h2, hvv, signOut]

/-- Witness for C7 at concrete states: a signed-out session fails, a
signed-in session with a token the remote accepts returns, and one whose
token the remote rejects is signed out and fails. -/
theorem ensureAuthenticated_spec_witness :
    ensureAuthenticated
        { isSignedIn := false, login := "", userInfo := none, token := none }
        sampleAuthSettings (fun _ => .ok true) =
      (.error authRequiredMessage,
        { isSignedIn := false, login := "", userInfo := none, token := none },
        sampleAuthSettings) ∧
    ensureAuthenticated
        { isSignedIn := true, login := "u", userInfo := none,
          token := some "tk" }
        sampleAuthSettings (fun _ => .ok true) =
      (.ok (),
        { isSignedIn := true, login := "u", userInfo := none,
          token := some "tk" },
        sampleAuthSettings) ∧
    ensureAuthenticated
        { isSignedIn := true, login := "u", userInfo := none,
          token := some "tk" }
        sampleAuthSettings (fun _ => .ok false) =
      (.error authRequiredMessage, markUserAsSignedOut,
        { sampleAuthSettings with oauthToken := none }) :=
  ⟨(ensureAuthenticated_spec _ sampleAuthSettings (fun _ => .ok true)).1
      (Or.inl rfl),
   (ensureAuthenticated_spec _ sampleAuthSettings (fun _ => .ok true)).2.1
      "tk" rfl rfl rfl,
   (ensureAuthenticated_spec _ sampleAuthSettings (fun _ => .ok false)).2.2
      "tk" rfl rfl (by simp)⟩

/-- C8: when the OAuth callback URL carries `error=access_denied`, the
sign-in flow fails with the dedicated message telling the user to press
"Authorize" (the message literally contains that word), and neither the
in-memory session nor the persisted settings — in particular the stored
`oauthToken` — change. -/
theorem signIn_access_denied (st : AuthMem) (s : Settings)
    (cb : CallbackParams) (exchange : String → Except String String)
    (fetchUser : String → Except String UserInfo)
    (hcid : strTruthy s.githubClientId = true)
    (hsec : strTruthy s.githubClientSecret = true)
    (herr : cb.error = some "access_denied") :
    signIn st s (authenticateWithGitHub cb exchange) fetchUser =
      (.error accessDeniedMessage, st, s) ∧
    List.IsInfix "Authorize".toList accessDeniedMessage.toList := by
  constructor
  · have hext : extractAuthCode cb = .error accessDeniedMessage := by
      simp [extractAuthCode, herr, strTruthy]
    simp [signIn, hcid, hsec, authenticateWithGitHub, hext]
  · decide

/-- Witness for C8 with concrete settings and callback parameters. -/
theorem signIn_access_denied_witness :
    signIn { isSignedIn := false, login := "", userInfo := none, token := none }
        sampleAuthSettings
        (authenticateWithGitHub
          { code := none, callbackState := none, error := some "access_denied",
            errorDescription := none }
          (fun c => .ok c))
        (fun _ => .error "unreached") =
      (.error accessDeniedMessage,
        { isSignedIn := false, login := "", userInfo := none, token := none },
        sampleAuthSettings) ∧
    List.IsInfix "Authorize".toList accessDeniedMessage.toList :=
  signIn_access_denied _ sampleAuthSettings
    { code := none, callbackState := none, error := some "access_denied",
      errorDescription := none }
    (fun c => .ok c) (fun _ => .error "unreached") rfl rfl rfl

/-- C9: every group mutator of the persistent store leaves the `settings`
field of the stored document unchanged, both on success (the written
document keeps the old settings) and on failure (the mutator throws
before writing). -/
theorem mutators_preserve_settings (data : StorageData) (g : Group)
    (gid tid fromId toId rid nm : String) (tabs : List Tab)
    (p : List String) (descr : Option String) (now : Nat) :
    (storedAfter data (saveGroup data g now)).settings = data.settings ∧
    (storedAfter data (deleteGroup data gid)).settings = data.settings ∧
    (storedAfter data (addTabsToGroup data gid tabs now)).settings = data.settings ∧
    (storedAfter data (removeTabFromGroup data gid tid now)).settings = data.settings ∧
    (storedAfter data (reorderTabsInGroup data gid p now)).settings = data.settings ∧
    (storedAfter data (reorderGroups data p)).settings = data.settings ∧
    (storedAfter data (moveTabBetweenGroups data tid fromId toId now)).settings = data.settings ∧
    (storedAfterCreate data (createGroup data nm descr now rid)).settings = data.settings := by
  refine ⟨?_, ?_, ?_, ?_, ?_, ?_, ?_, ?_⟩ <;>
    · simp only [saveGroup, deleteGroup, addTabsToGroup, removeTabFromGroup,
        reorderTabsInGroup, reorderGroups, moveTabBetweenGroups, createGroup]
      repeat' split
      all_goals rfl

/-- C10: deleting an id that is neither `"default"` nor the id of any
existing group succeeds without any error (there is no not-found check)
and the stored document — group list included — is unchanged. -/
theorem deleteGroup_unknown_id_noop (data : StorageData) (gid : String)
    (h1 : gid ≠ "default") (h2 : gid ∉ data.groups.map Group.id) :
    deleteGroup data gid = .ok data := by
  have hb : (gid == "default") = false := beq_eq_false_iff_ne.mpr h1
  have hf : data.groups.filter (fun g => g.id != gid) = data.groups := by
    rw [List.filter_eq_self]
    intro g hg
    simp only [bne_iff_ne, ne_eq]
    intro e
    exact h2 (e ▸ List.mem_map_of_mem Group.id hg)
  simp [deleteGroup, hb, hf]

/-- Witness for C10: deleting the unknown id `"nope"` from the sample
store returns the store unchanged. -/
theorem deleteGroup_unknown_id_noop_witness :
    deleteGroup sampleData2 "nope" = .ok sampleData2 :=
  deleteGroup_unknown_id_noop sampleData2 "nope" (by decide) (by decide)

end TheOneTab
